import Mathlib

/-!
Verification of the CV Analyzer scoring and matching pipeline
(`app/services/scoring_engine.py`, `app/services/skill_matcher.py`,
`ml_models/job_matcher.py`) against its natural-language specification.

Python dictionaries are embedded as Lean structures.  A key read with
`dict.get(key, default)` becomes an `Option` field whose default is applied
at the use site, exactly as in the source.  A dictionary that the source
tests for falsiness (`if not d`) is embedded as `Option` of the structure,
`none` standing for the empty dictionary.  Python floats are embedded as
rationals; `round(x, n)` is embedded as `roundTo n`, which agrees with the
source away from exact ties (all values appearing in the claims are away
from ties).
-/

set_option allowUnsafeReducibility true

attribute [local semireducible] Rat.add Rat.mul Rat.div Rat.inv Rat.sub Rat.neg Rat.ofScientific

/-- Rounding to `d` decimal places, modelling Python `round(x, d)`. -/
def roundTo (d : ℕ) (q : ℚ) : ℚ := (round (q * (10 : ℚ) ^ d) : ℤ) / (10 : ℚ) ^ d

/-- Rounding to one decimal place, `round(x, 1)` in the source. -/
def round1 (q : ℚ) : ℚ := roundTo 1 q

/-- Rounding to two decimal places, `round(x, 2)` in the source. -/
def round2 (q : ℚ) : ℚ := roundTo 2 q

/-- Python `str.strip()`: remove leading and trailing whitespace (char-level,
so that proofs can evaluate it). -/
def pyStrip (s : String) : String :=
  (((s.data.dropWhile Char.isWhitespace).reverse.dropWhile Char.isWhitespace).reverse).asString

/-- A Python string is truthy after `strip()` exactly when its strip is
nonempty; counts of such values appear in several completeness factors. -/
def truthyTrim (s : String) : Bool := !(pyStrip s).isEmpty

/-- Python `str.lower()` (char-level, so that proofs can evaluate it). -/
def lowerStr (s : String) : String := (s.data.map Char.toLower).asString

/-! ## Data model of the analysis dictionaries (`scoring_engine.py` inputs) -/

/-- The `skills_analysis` dictionary: fields read with `.get(key, default)`. -/
structure SkillsAnalysis where
  technical_skills : Option (List String) := none
  soft_skills : Option (List String) := none
  skill_categories : Option (List (String × List String)) := none
  skill_frequency : Option (List (String × Nat)) := none
  deriving Repr, DecidableEq

/-- The `experience_analysis` dictionary. -/
structure ExperienceAnalysis where
  total_years : Option ℚ := none
  experience_quality_score : Option ℚ := none
  keywords_found : Option (List String) := none
  deriving Repr, DecidableEq

/-- The `education_analysis` dictionary. -/
structure EducationAnalysis where
  education_level_score : Option ℚ := none
  degrees : Option (List String) := none
  deriving Repr, DecidableEq

/-- The `text_quality` dictionary. -/
structure TextQuality where
  quality_score : Option ℚ := none
  word_count : Option ℕ := none
  deriving Repr, DecidableEq

/-- The `cv_analysis` dictionary passed to the scoring engine.  A sub-dictionary
that may be absent or empty (`cv_analysis.get(key, {})` followed by a falsiness
test) is an `Option`; `structured_sections` and `contact_info` are association
lists of section/field name to content. -/
structure CvAnalysis where
  skills_analysis : Option SkillsAnalysis := none
  experience_analysis : Option ExperienceAnalysis := none
  education_analysis : Option EducationAnalysis := none
  text_quality : Option TextQuality := none
  structured_sections : List (String × String) := []
  contact_info : List (String × String) := []
  deriving Repr, DecidableEq

/-- The `job_requirements` dictionary. -/
structure JobRequirements where
  required_skills : Option (List String) := none
  preferred_skills : Option (List String) := none
  minimum_experience : Option ℚ := none
  job_description : Option String := none
  deriving Repr, DecidableEq

/-- Weight configuration for the four scoring components (`default_weights`
and any `custom_weights` dictionary; a key absent from the dictionary is a
weight of `0.0` via `weights.get(component, 0.0)`). -/
structure Weights where
  skills : ℚ
  experience : ℚ
  education : ℚ
  quality : ℚ
  deriving Repr, DecidableEq

/-- `ScoringEngine.__init__`: `default_weights`. -/
def defaultWeights : Weights := ⟨0.40, 0.30, 0.20, 0.10⟩

/-- `ScoringEngine.__init__`: `score_ranges`, in dictionary insertion order. -/
def defaultScoreRanges : List (String × ℚ × ℚ) :=
  [("excellent", 90, 100), ("very_good", 80, 89), ("good", 70, 79),
   ("fair", 60, 69), ("poor", 0, 59)]

/-- The `ScoringEngine` object state: the attributes set in `__init__` and
never written afterwards. -/
structure ScoringEngine where
  default_weights : Weights
  score_ranges : List (String × ℚ × ℚ)
  deriving Repr, DecidableEq

/-- The scoring engine as constructed by `ScoringEngine.__init__`. -/
def mkScoringEngine : ScoringEngine := ⟨defaultWeights, defaultScoreRanges⟩

/-! ## Component scores (`scoring_engine.py`) -/

/-- `ScoringEngine._calculate_skills_score`: four capped integer sub-factors. -/
def calcSkillsScore (skills_data : Option SkillsAnalysis) : ℚ :=
  match skills_data with
  | none => 0.0
  | some d =>
    let technical_skills := d.technical_skills.getD []
    let skill_count_score := min 40 (technical_skills.length * 2)
    let skill_categories := d.skill_categories.getD []
    let category_count := (skill_categories.filter (fun p => !p.2.isEmpty)).length
    let diversity_score := min 30 (category_count * 5)
    let soft_skills := d.soft_skills.getD []
    let soft_skills_score := min 15 (soft_skills.length * 2)
    let skill_frequency := d.skill_frequency.getD []
    let frequency_score := min 15 ((skill_frequency.filter (fun p => 2 < p.2)).length * 3)
    ((skill_count_score + diversity_score + soft_skills_score + frequency_score : ℕ) : ℚ)

/-- `ScoringEngine._calculate_experience_score`. -/
def calcExperienceScore (experience_data : Option ExperienceAnalysis) : ℚ :=
  match experience_data with
  | none => 0.0
  | some d =>
    let total_years := d.total_years.getD 0
    let years_score := min 50 (total_years * 8)
    let quality_score := d.experience_quality_score.getD 0 * 0.3
    let keywords_found := d.keywords_found.getD []
    let keywords_score : ℚ := min 20 ((keywords_found.length : ℚ) * 2)
    years_score + quality_score + keywords_score

/-- `ScoringEngine._calculate_education_score`: base score 30 for an empty
dictionary, else level score plus a capped degree bonus, capped at 100. -/
def calcEducationScore (education_data : Option EducationAnalysis) : ℚ :=
  match education_data with
  | none => 30.0
  | some d =>
    let education_level_score := d.education_level_score.getD 0
    let degrees := d.degrees.getD []
    let degree_bonus : ℚ := ((min 10 (degrees.length * 3) : ℕ) : ℚ)
    min 100.0 (education_level_score + degree_bonus)

/-- `ScoringEngine._calculate_quality_score`: default 50 for an empty
dictionary, else a text-quality factor plus section and contact completeness. -/
def calcQualityScore (quality_data : Option TextQuality) (cv : CvAnalysis) : ℚ :=
  match quality_data with
  | none => 50.0
  | some d =>
    let text_quality := d.quality_score.getD 50
    let completeness := (cv.structured_sections.filter (fun p => truthyTrim p.2)).length
    let completeness_score : ℚ := ((min 30 (completeness * 5) : ℕ) : ℚ)
    let contact_completeness := (cv.contact_info.filter (fun p => truthyTrim p.2)).length
    let contact_score : ℚ := ((min 30 (contact_completeness * 5) : ℕ) : ℚ)
    text_quality * 0.4 + completeness_score + contact_score

/-- The four component scores, `ScoringEngine._calculate_component_scores`
(keys in dictionary insertion order: skills, experience, education, quality). -/
structure ComponentScores where
  skills : ℚ
  experience : ℚ
  education : ℚ
  quality : ℚ
  deriving Repr, DecidableEq

/-- `ScoringEngine._calculate_component_scores`. -/
def calcComponentScores (cv : CvAnalysis) : ComponentScores where
  skills := calcSkillsScore cv.skills_analysis
  experience := calcExperienceScore cv.experience_analysis
  education := calcEducationScore cv.education_analysis
  quality := calcQualityScore cv.text_quality cv

/-- Python `str.title()` restricted to what the grade names need: uppercase a
letter that follows a non-cased character, lowercase the rest. -/
def pyTitle (s : String) : String :=
  (s.data.foldl
    (fun (acc : List Char × Bool) c =>
      if c.isAlpha then
        (acc.1 ++ [if acc.2 then c.toLower else c.toUpper], true)
      else (acc.1 ++ [c], false))
    ([], false)).1.asString

/-- Python `replace("_", " ")` for the single-character pattern: a
character-wise map. -/
def underscoreToSpace (s : String) : String :=
  (s.data.map (fun c => if c = '_' then ' ' else c)).asString

/-- `ScoringEngine._determine_score_grade`: first range (in insertion order)
with `min_score <= score <= max_score`, displayed via
`grade.replace("_", " ").title()`; `"Unknown"` when no range contains the
score. -/
def determineScoreGrade (ranges : List (String × ℚ × ℚ)) (score : ℚ) : String :=
  match ranges.find? (fun r => r.2.1 ≤ score ∧ score ≤ r.2.2) with
  | some r => pyTitle (underscoreToSpace r.1)
  | none => "Unknown"

/-- `ScoringEngine._calculate_confidence_level`: mean of a word-count bucket,
a section-count factor and a contact-field factor, rounded to one decimal. -/
def calcConfidenceLevel (cv : CvAnalysis) : ℚ :=
  let word_count := match cv.text_quality with
    | none => 0
    | some q => q.word_count.getD 0
  let wordFactor : ℚ := if word_count > 500 then 80 else if word_count > 200 then 60 else 30
  let sections_with_content := (cv.structured_sections.filter (fun p => truthyTrim p.2)).length
  let section_confidence : ℚ := ((min 100 (sections_with_content * 20) : ℕ) : ℚ)
  let contact_fields := (cv.contact_info.filter (fun p => truthyTrim p.2)).length
  let contact_confidence : ℚ := ((min 100 (contact_fields * 25) : ℕ) : ℚ)
  round1 ((wordFactor + section_confidence + contact_confidence) / 3)

/-- `ScoringEngine._identify_scoring_strengths`, iterating the component
scores in dictionary insertion order. -/
def identifyScoringStrengths (cs : ComponentScores) : List String :=
  ([("skills", cs.skills), ("experience", cs.experience),
    ("education", cs.education), ("quality", cs.quality)].filterMap
    (fun p =>
      if p.2 ≥ 80 then some ("Excellent " ++ p.1 ++ " profile")
      else if p.2 ≥ 70 then some ("Strong " ++ p.1 ++ " background")
      else none))

/-- Python `str.title()` applied to a lowercase component name. -/
def titleWord (s : String) : String := pyTitle s

/-- `ScoringEngine._identify_improvement_areas`. -/
def identifyImprovementAreas (cs : ComponentScores) : List String :=
  ([("skills", cs.skills), ("experience", cs.experience),
    ("education", cs.education), ("quality", cs.quality)].filterMap
    (fun p =>
      if p.2 < 60 then some (titleWord p.1 ++ " development needed")
      else if p.2 < 70 then some (titleWord p.1 ++ " enhancement opportunity")
      else none))

/-- `ScoringEngine._generate_scoring_recommendations`. -/
def generateScoringRecommendations (cs : ComponentScores) : List String :=
  (if cs.skills < 70 then
    ["Expand technical skill set and highlight existing expertise more prominently"] else []) ++
  (if cs.experience < 70 then
    ["Emphasize achievements and quantifiable results in work experience"] else []) ++
  (if cs.education < 70 then
    ["Consider additional certifications or formal training"] else []) ++
  (if cs.quality < 70 then
    ["Improve CV structure, formatting, and completeness"] else []) ++
  (if (cs.skills + cs.experience + cs.education + cs.quality) / 4 < 70 then
    ["Focus on comprehensive CV improvement across all areas"] else [])

/-- `ScoringEngine._calculate_percentile_rank`. -/
def calcPercentileRank (score : ℚ) : ℕ :=
  if score ≥ 90 then 95
  else if score ≥ 80 then 85
  else if score ≥ 70 then 70
  else if score ≥ 60 then 50
  else if score ≥ 50 then 30
  else 15

/-- One entry of the `score_breakdown` dictionary: raw score, weight, and the
weighted score rounded to two decimals. -/
structure BreakdownEntry where
  component : String
  raw_score : ℚ
  weight : ℚ
  weighted_score : ℚ
  deriving Repr, DecidableEq

/-- The dictionary returned by `ScoringEngine.calculate_overall_score`. -/
structure ScoringResult where
  overall_score : ℚ
  component_scores : ComponentScores
  score_breakdown : List BreakdownEntry
  score_grade : String
  percentile_rank : ℕ
  strengths : List String
  improvement_areas : List String
  recommendations : List String
  confidence_level : ℚ
  deriving Repr, DecidableEq

/-- `ScoringEngine.calculate_overall_score`.  The method reads
`self.default_weights` and `self.score_ranges` and writes no attribute, so it
is embedded as a state-passing function returning the (unchanged) engine
together with the result dictionary.  The weighted accumulation iterates the
component scores in dictionary insertion order; the grade is determined from
the unrounded accumulated score while the reported `overall_score` is rounded
to one decimal. -/
def calculateOverallScore (self : ScoringEngine) (cv_analysis : CvAnalysis)
    (_job_requirements : Option JobRequirements) (custom_weights : Option Weights) :
    ScoringEngine × ScoringResult :=
  let weights := custom_weights.getD self.default_weights
  let cs := calcComponentScores cv_analysis
  let items : List (String × ℚ × ℚ) :=
    [("skills", cs.skills, weights.skills), ("experience", cs.experience, weights.experience),
     ("education", cs.education, weights.education), ("quality", cs.quality, weights.quality)]
  let overall_score := items.foldl (fun acc p => acc + p.2.1 * p.2.2) 0
  let breakdown := items.map (fun p => BreakdownEntry.mk p.1 p.2.1 p.2.2 (round2 (p.2.1 * p.2.2)))
  (self,
   { overall_score := round1 overall_score
     component_scores := cs
     score_breakdown := breakdown
     score_grade := determineScoreGrade self.score_ranges overall_score
     percentile_rank := calcPercentileRank overall_score
     strengths := identifyScoringStrengths cs
     improvement_areas := identifyImprovementAreas cs
     recommendations := generateScoringRecommendations cs
     confidence_level := calcConfidenceLevel cv_analysis })

/-! ## Model of `difflib.SequenceMatcher.ratio` (no junk: the inputs are short
skill strings, far below the autojunk threshold, and no junk predicate is
supplied; the post-search junk-extension loops are then no-ops because the
dynamic programming already yields maximal blocks). -/

/-- Ascending positions of character `c` in `b` (the `b2j` table of
`SequenceMatcher`). -/
def charPositions (c : Char) (b : List Char) : List ℕ :=
  (b.enum.filter (fun p => p.2 = c)).map (fun p => p.1)

/-- Lookup in the `j2len` association list, defaulting to 0. -/
def assocGetD (l : List (ℕ × ℕ)) (j : ℕ) : ℕ :=
  match l.find? (fun p => p.1 = j) with
  | some p => p.2
  | none => 0

/-- Inner loop of `SequenceMatcher.find_longest_match` over the positions of
`a[i]` in `b`: state is (new `j2len` row, best i, best j, best size). -/
def flmInner (i : ℕ) (j2len : List (ℕ × ℕ))
    (state : List (ℕ × ℕ) × ℕ × ℕ × ℕ) (j : ℕ) : List (ℕ × ℕ) × ℕ × ℕ × ℕ :=
  let k := (if j = 0 then 0 else assocGetD j2len (j - 1)) + 1
  let row := (j, k) :: state.1
  if state.2.2.2 < k then (row, i + 1 - k, j + 1 - k, k)
  else (row, state.2)

/-- Outer loop of `find_longest_match` over the indices of `a`. -/
def flmOuter (b : List Char) (state : List (ℕ × ℕ) × ℕ × ℕ × ℕ)
    (p : ℕ × Char) : List (ℕ × ℕ) × ℕ × ℕ × ℕ :=
  (charPositions p.2 b).foldl (flmInner p.1 state.1) ([], state.2)

/-- `SequenceMatcher.find_longest_match` on the full ranges of `a` and `b`:
returns (i, j, size) of the longest matching block, first found in scan
order on ties. -/
def findLongestMatch (a b : List Char) : ℕ × ℕ × ℕ :=
  (a.enum.foldl (flmOuter b) ([], 0, 0, 0)).2

/-- Total size of all matching blocks (`get_matching_blocks` recursion of
`SequenceMatcher.ratio`), with explicit fuel; `a.length + b.length + 1` fuel
always suffices since each recursive call strictly shrinks the combined
length. -/
def matchBlocksTotal : ℕ → List Char → List Char → ℕ
  | 0, _, _ => 0
  | fuel + 1, a, b =>
    let r := findLongestMatch a b
    let i := r.1
    let j := r.2.1
    let k := r.2.2
    if k = 0 then 0
    else k + matchBlocksTotal fuel (a.take i) (b.take j)
           + matchBlocksTotal fuel (a.drop (i + k)) (b.drop (j + k))

/-- `SequenceMatcher(None, sa, sb).ratio()`: `2 * M / T` where `M` is the
total matched size and `T` the combined length (1 when both are empty, as in
`difflib._calculate_ratio`). -/
def sequenceSimilarity (sa sb : String) : ℚ :=
  let a := sa.data
  let b := sb.data
  let t := a.length + b.length
  if t = 0 then 1.0
  else 2 * (matchBlocksTotal (t + 1) a b : ℚ) / (t : ℚ)

/-! ## Skill matcher (`app/services/skill_matcher.py`) -/

/-- `SkillMatcher` synonym groups (the `skill_synonyms` table built in the
constructor). -/
def skillSynonyms : List (List String) :=
  [["javascript", "js", "ecmascript"],
   ["typescript", "ts"],
   ["python", "py"],
   ["react", "reactjs", "react.js"],
   ["angular", "angularjs"],
   ["vue", "vuejs", "vue.js"],
   ["node", "nodejs", "node.js"],
   ["postgresql", "postgres"],
   ["mongodb", "mongo"],
   ["machine learning", "ml", "artificial intelligence", "ai"],
   ["aws", "amazon web services"],
   ["gcp", "google cloud platform", "google cloud"],
   ["kubernetes", "k8s"],
   ["docker", "containerization"]]

/-- `SkillMatcher._are_skill_synonyms`. -/
def areSkillSynonyms (skill1 skill2 : String) : Bool :=
  skillSynonyms.any (fun g => g.contains (lowerStr skill1) && g.contains (lowerStr skill2))

/-- Inner candidate search of `SkillMatcher._find_matching_skills` for one
required skill: exact match scores 1.0 and breaks; a synonym scores 0.9 when
its similarity exceeds the current best; a fuzzy candidate scores its
similarity when that exceeds both 0.8 and the current best. -/
def findBestMatch (required_skill : String) :
    List String → Option String × ℚ → Option String × ℚ
  | [], acc => acc
  | cv_skill :: rest, acc =>
    if (lowerStr cv_skill) = (lowerStr required_skill) then (some cv_skill, 1.0)
    else
      let acc1 : Option String × ℚ :=
        if areSkillSynonyms cv_skill required_skill ∧
            sequenceSimilarity (lowerStr cv_skill) (lowerStr required_skill) > acc.2 then
          (some cv_skill, 0.9)
        else acc
      let similarity := sequenceSimilarity (lowerStr cv_skill) (lowerStr required_skill)
      let acc2 : Option String × ℚ :=
        if similarity > 0.8 ∧ similarity > acc1.2 then (some cv_skill, similarity) else acc1
      findBestMatch required_skill rest acc2

/-- One entry of the `matched_skills` list. -/
structure MatchedSkill where
  required_skill : String
  matched_skill : String
  match_score : ℚ
  deriving Repr, DecidableEq

/-- `SkillMatcher._find_matching_skills`: a required skill is recorded when a
truthy best match with score at least 0.8 was found. -/
def findMatchingSkills (cv_skills required_skills : List String) : List MatchedSkill :=
  required_skills.filterMap (fun required_skill =>
    let r := findBestMatch required_skill cv_skills (none, 0.0)
    match r.1 with
    | some best_match =>
      if best_match ≠ "" ∧ r.2 ≥ 0.8 then
        some ⟨required_skill, best_match, round2 r.2⟩
      else none
    | none => none)

/-- Candidate test of `SkillMatcher._find_missing_skills` beyond the direct
lowercase membership: a synonym or a fuzzy similarity strictly above 0.8. -/
def existsSynOrFuzzy (cv_skills : List String) (required_skill : String) : Bool :=
  cv_skills.any (fun cv_skill =>
    areSkillSynonyms cv_skill required_skill ||
    decide (sequenceSimilarity (lowerStr cv_skill) (lowerStr required_skill) > 0.8))

/-- `SkillMatcher._find_missing_skills`. -/
def findMissingSkills (cv_skills required_skills : List String) : List String :=
  let cv_skills_lower := cv_skills.map (fun s => (lowerStr s))
  required_skills.filter (fun required_skill =>
    !(cv_skills_lower.contains (lowerStr required_skill) ||
      existsSynOrFuzzy cv_skills required_skill))

/-- Leading-segment equality of character lists. -/
def leadsEq : List Char → List Char → Bool
  | [], _ => true
  | _ :: _, [] => false
  | x :: xs, y :: ys => x = y && leadsEq xs ys

/-- Contiguous-subsequence test on character lists. -/
def subSeq (n : List Char) : List Char → Bool
  | [] => n.isEmpty
  | c :: t => leadsEq n (c :: t) || subSeq n t

/-- Python substring containment `needle in hay`. -/
def strContainsSub (hay needle : String) : Bool := subSeq needle.data hay.data

/-- Category keyword table from `SkillMatcher._skill_belongs_to_category`. -/
def categoryKeywords : List (String × List String) :=
  [("Programming Languages", ["python", "java", "javascript", "c++", "php", "ruby"]),
   ("Web Technologies", ["html", "css", "react", "angular", "vue", "node"]),
   ("Databases", ["sql", "mysql", "postgresql", "mongodb", "redis"]),
   ("Cloud & DevOps", ["aws", "azure", "docker", "kubernetes", "jenkins"]),
   ("Data Science & ML", ["machine learning", "data science", "pandas", "tensorflow"])]

/-- `SkillMatcher._skill_belongs_to_category`. -/
def skillBelongsToCategory (skill category : String) : Bool :=
  let keywords := ((categoryKeywords.find? (fun p => p.1 = category)).map (fun p => p.2)).getD []
  keywords.any (fun kw => strContainsSub (lowerStr skill) kw)

/-- `SkillMatcher._calculate_category_scores`. -/
def calcCategoryScores (cv_categories : List (String × List String))
    (required_skills : List String) : List (String × ℚ) :=
  cv_categories.map (fun p =>
    let category := p.1
    let cv_skills := p.2
    if cv_skills.isEmpty then (category, 0.0)
    else
      let counts := required_skills.foldl (fun (acc : ℕ × ℕ) required_skill =>
        if cv_skills.any (fun cv_skill =>
            decide (sequenceSimilarity (lowerStr cv_skill) (lowerStr required_skill) > 0.8)) then
          (acc.1 + 1, acc.2 + 1)
        else if skillBelongsToCategory required_skill category then (acc.1, acc.2 + 1)
        else acc) (0, 0)
      if counts.2 ≠ 0 then (category, round1 ((counts.1 : ℚ) / (counts.2 : ℚ) * 100))
      else (category, 50.0))

/-- `SkillMatcher._generate_skill_recommendations`. -/
def generateSkillRecommendations (missing_required missing_preferred : List String)
    (cv_categories : List (String × List String)) : List String :=
  (if !missing_required.isEmpty then
    ["Priority: Learn " ++ String.intercalate ", " (missing_required.take 3) ++
      " to meet job requirements"]
  else []) ++
  (if !missing_preferred.isEmpty then
    ["Consider learning " ++ String.intercalate ", " (missing_preferred.take 2) ++
      " to stand out"]
  else []) ++
  (let weak := (cv_categories.filter (fun p => p.2.length < 3)).map (fun p => p.1)
   if !weak.isEmpty then
    ["Strengthen skills in: " ++ String.intercalate ", " (weak.take 2)]
   else [])

/-- `SkillMatcher._categorize_skill`. -/
def categorizeSkill (skill : String) : String :=
  let s := (lowerStr skill)
  if ["python", "java", "javascript", "c++"].any (fun w => strContainsSub s w) then
    "Programming Languages"
  else if ["html", "css", "react", "angular"].any (fun w => strContainsSub s w) then
    "Web Technologies"
  else if ["sql", "mysql", "mongodb"].any (fun w => strContainsSub s w) then
    "Databases"
  else if ["aws", "azure", "docker"].any (fun w => strContainsSub s w) then
    "Cloud & DevOps"
  else "Other"

/-- One entry of the `skill_gaps` list. -/
structure SkillGap where
  skill : String
  gap_type : String
  priority : String
  category : String
  deriving Repr, DecidableEq

/-- `SkillMatcher._analyze_skill_gaps`. -/
def analyzeSkillGaps (missing_required missing_preferred : List String) : List SkillGap :=
  missing_required.map (fun s => ⟨s, "critical", "high", categorizeSkill s⟩) ++
  missing_preferred.map (fun s => ⟨s, "enhancement", "medium", categorizeSkill s⟩)

/-- The `missing_skills` sub-dictionary of the match result. -/
structure MissingSkills where
  required : List String
  preferred : List String
  deriving Repr, DecidableEq

/-- The dictionary returned by `SkillMatcher.match_skills`. -/
structure MatchResult where
  matched_skills : List MatchedSkill
  missing_skills : MissingSkills
  skill_match_score : ℚ
  match_percentage : ℚ
  skill_gaps : List SkillGap
  recommendations : List String
  category_scores : List (String × ℚ)
  deriving Repr, DecidableEq

/-- `SkillMatcher.match_skills`: the required ratio defaults to 1.0 on an
empty required list, the preferred ratio defaults to 0.5 on an empty
preferred list, and the summary score weighs them 70 % / 30 %. -/
def matchSkills (cv_skills : SkillsAnalysis) (job_requirements : JobRequirements) :
    MatchResult :=
  let required_skills := job_requirements.required_skills.getD []
  let preferred_skills := job_requirements.preferred_skills.getD []
  let cv_technical_skills := cv_skills.technical_skills.getD []
  let cv_soft_skills := cv_skills.soft_skills.getD []
  let cv_skill_categories := cv_skills.skill_categories.getD []
  let all_cv_skills := cv_technical_skills ++ cv_soft_skills
  let matched_skills := findMatchingSkills all_cv_skills required_skills
  let matched_preferred := findMatchingSkills all_cv_skills preferred_skills
  let missing_required := findMissingSkills all_cv_skills required_skills
  let missing_preferred := findMissingSkills all_cv_skills preferred_skills
  let required_match_score : ℚ :=
    if required_skills.isEmpty then 1.0
    else (matched_skills.length : ℚ) / (required_skills.length : ℚ)
  let preferred_match_score : ℚ :=
    if preferred_skills.isEmpty then 0.5
    else (matched_preferred.length : ℚ) / (preferred_skills.length : ℚ)
  let overall_score := required_match_score * 0.7 + preferred_match_score * 0.3
  { matched_skills := matched_skills ++ matched_preferred
    missing_skills := ⟨missing_required, missing_preferred⟩
    skill_match_score := round2 (overall_score * 100)
    match_percentage := round1 (overall_score * 100)
    skill_gaps := analyzeSkillGaps missing_required missing_preferred
    recommendations :=
      generateSkillRecommendations missing_required missing_preferred cv_skill_categories
    category_scores :=
      calcCategoryScores cv_skill_categories (required_skills ++ preferred_skills) }

/-! ## Compatibility percentage (`scoring_engine.py`) -/

/-- The adjustments dictionary of
`ScoringEngine._calculate_compatibility_adjustments`. -/
structure CompatAdjustments where
  quality_adjustment : ℚ
  completeness_adjustment : ℚ
  experience_adjustment : ℚ
  total_adjustment : ℚ
  deriving Repr, DecidableEq

/-- `ScoringEngine._calculate_compatibility_adjustments`. -/
def calcCompatibilityAdjustments (cv : CvAnalysis) : CompatAdjustments :=
  let quality_score : ℚ := match cv.text_quality with
    | none => 50
    | some q => q.quality_score.getD 50
  let quality_adjustment : ℚ :=
    if quality_score > 80 then 5.0 else if quality_score < 40 then -5.0 else 0.0
  let complete_sections :=
    (cv.structured_sections.filter (fun p => p.2 ≠ "" && (pyStrip p.2).length > 50)).length
  let completeness_adjustment : ℚ :=
    if complete_sections ≥ 4 then 3.0 else if complete_sections ≤ 1 then -3.0 else 0.0
  ⟨quality_adjustment, completeness_adjustment, 0.0,
   quality_adjustment + completeness_adjustment + 0.0⟩

/-- The `job_compatibility` dictionary consumed by
`calculate_compatibility_percentage` (produced upstream by the skill
matcher's `calculate_job_compatibility`). -/
structure JobCompatibility where
  overall_compatibility : Option ℚ := none
  strengths : Option (List String) := none
  weaknesses : Option (List String) := none
  recommendations : Option (List String) := none
  deriving Repr, DecidableEq

/-- `ScoringEngine._determine_match_level`. -/
def determineMatchLevel (compatibility_percentage : ℚ) : String :=
  if compatibility_percentage ≥ 90 then "Excellent Match"
  else if compatibility_percentage ≥ 80 then "Very Good Match"
  else if compatibility_percentage ≥ 70 then "Good Match"
  else if compatibility_percentage ≥ 60 then "Fair Match"
  else "Poor Match"

/-- One entry of `recommendation_priority`
(`ScoringEngine._prioritize_recommendations`). -/
structure RecPriority where
  recommendation : String
  priority : String
  estimated_effort : String
  expected_impact : String
  deriving Repr, DecidableEq

/-- `ScoringEngine._prioritize_recommendations`. -/
def prioritizeRecommendations (job_recommendations : List String) : List RecPriority :=
  (job_recommendations.take 5).enum.map (fun p =>
    ⟨p.2, if p.1 < 2 then "High" else "Medium", "Medium",
     if p.1 < 3 then "High" else "Medium"⟩)

/-- `ScoringEngine._estimate_preparation_time`. -/
def estimatePreparationTime (critical_gaps : List String) : String :=
  if critical_gaps.length = 0 then "Ready to apply"
  else if critical_gaps.length ≤ 2 then "1-3 months preparation"
  else if critical_gaps.length ≤ 4 then "3-6 months preparation"
  else "6+ months preparation"

/-- `ScoringEngine._estimate_hiring_probability`. -/
def estimateHiringProbability (compatibility_percentage : ℚ) : String :=
  if compatibility_percentage ≥ 85 then "Very High (80-90%)"
  else if compatibility_percentage ≥ 75 then "High (60-80%)"
  else if compatibility_percentage ≥ 65 then "Medium (40-60%)"
  else if compatibility_percentage ≥ 55 then "Low (20-40%)"
  else "Very Low (0-20%)"

/-- The dictionary returned by
`ScoringEngine.calculate_compatibility_percentage`. -/
structure CompatibilityResult where
  compatibility_percentage : ℚ
  match_level : String
  key_matches : List String
  critical_gaps : List String
  nice_to_have_gaps : List String
  recommendation_priority : List RecPriority
  estimated_preparation_time : String
  hiring_probability : String
  deriving Repr, DecidableEq

/-- `ScoringEngine.calculate_compatibility_percentage`: the base score plus
the total adjustment, capped above at 100 by `min(100.0, ...)` (there is no
lower cap in the source). -/
def calculateCompatibilityPercentage (cv_analysis : CvAnalysis)
    (job_compatibility : JobCompatibility) : CompatibilityResult :=
  let base_compatibility := job_compatibility.overall_compatibility.getD 0.0
  let adjustment_factors := calcCompatibilityAdjustments cv_analysis
  let adjusted_compatibility :=
    min 100.0 (base_compatibility + adjustment_factors.total_adjustment)
  let critical_gaps := (job_compatibility.weaknesses.getD []).take 3
  { compatibility_percentage := round1 adjusted_compatibility
    match_level := determineMatchLevel adjusted_compatibility
    key_matches := (job_compatibility.strengths.getD []).take 3
    critical_gaps := critical_gaps
    nice_to_have_gaps := ["Additional certifications", "More diverse project experience"]
    recommendation_priority :=
      prioritizeRecommendations (job_compatibility.recommendations.getD [])
    estimated_preparation_time := estimatePreparationTime critical_gaps
    hiring_probability := estimateHiringProbability adjusted_compatibility }

/-! ## Job matcher experience match (`ml_models/job_matcher.py`) -/

/-- Length of the leading run of ASCII letters. -/
def letterRunLen : List Char → ℕ
  | [] => 0
  | c :: t => if c.isAlpha then letterRunLen t + 1 else 0

/-- `re.findall` for the literal pattern of
`JobMatcher._extract_keywords_from_job_description`.  The source writes the
raw pattern with doubled backslashes, so the regular expression matches a
literal backslash, the letter b, three or more ASCII letters, a literal
backslash and the letter b — not word boundaries.  Matches are found left to
right and are non-overlapping; fuel bounds the scan. -/
def findallBslashWord : ℕ → List Char → List (List Char)
  | 0, _ => []
  | _ + 1, [] => []
  | fuel + 1, c :: rest =>
    if c = '\\' then
      match rest with
      | 'b' :: rest2 =>
        let n := letterRunLen rest2
        if 3 ≤ n then
          match rest2.drop n with
          | '\\' :: 'b' :: rest3 =>
            ('\\' :: 'b' :: (rest2.take n ++ ['\\', 'b'])) :: findallBslashWord fuel rest3
          | _ => findallBslashWord fuel rest
        else findallBslashWord fuel rest
      | _ => findallBslashWord fuel rest
    else findallBslashWord fuel rest

/-- Occurrence count of a word in a word list (`collections.Counter`). -/
def countOcc (w : String) (ws : List String) : ℕ := (ws.filter (fun x => x = w)).length

/-- First occurrences in order (the distinct keys of a `Counter`). -/
def distinctKeep (seen : List String) : List String → List String
  | [] => []
  | w :: rest =>
    if seen.contains w then distinctKeep seen rest
    else w :: distinctKeep (w :: seen) rest

/-- Stable descending insertion by count (ties keep earlier elements first,
as `Counter.most_common` does). -/
def insertByCountDesc (x : String × ℕ) : List (String × ℕ) → List (String × ℕ)
  | [] => [x]
  | y :: ys => if y.2 > x.2 then y :: insertByCountDesc x ys else x :: y :: ys

/-- Stable descending sort by count. -/
def sortByCountDesc : List (String × ℕ) → List (String × ℕ)
  | [] => []
  | x :: xs => insertByCountDesc x (sortByCountDesc xs)

/-- `Counter(words).most_common(n)`. -/
def mostCommon (n : ℕ) (ws : List String) : List (String × ℕ) :=
  (sortByCountDesc ((distinctKeep [] ws).map (fun w => (w, countOcc w ws)))).take n

/-- The `tech_business_indicators` list of
`JobMatcher._extract_keywords_from_job_description`. -/
def techBusinessIndicators : List String :=
  ["develop", "design", "implement", "manage", "lead", "create",
   "build", "optimize", "analyze", "strategy", "solution",
   "system", "platform", "application", "service", "product"]

/-- `JobMatcher._extract_keywords_from_job_description`. -/
def extractKeywordsFromJobDescription (job_description : String) : List String :=
  let words := (findallBslashWord (job_description.length + 1)
    (lowerStr job_description).data).map (fun l => l.asString)
  (mostCommon 20 words).filterMap (fun p =>
    if techBusinessIndicators.contains p.1 || p.2 > 2 then some p.1 else none)

/-- `JobMatcher._calculate_domain_relevance`: neutral 50 when the job
description is empty or either keyword list/set is empty, else the
keyword-overlap ratio scaled to 100 and capped at 100. -/
def domainRelevance (experience_data : Option ExperienceAnalysis)
    (job_description : String) : ℚ :=
  if job_description = "" then 50.0
  else
    let experience_keywords := (experience_data.map (fun d => d.keywords_found.getD [])).getD []
    let job_keywords := extractKeywordsFromJobDescription job_description
    if job_keywords.isEmpty || experience_keywords.isEmpty then 50.0
    else
      let experience_set := distinctKeep [] (experience_keywords.map (fun s => (lowerStr s)))
      let job_set := distinctKeep [] (job_keywords.map (fun s => (lowerStr s)))
      if experience_set.isEmpty || job_set.isEmpty then 50.0
      else
        let intersection := experience_set.filter (fun w => job_set.contains w)
        let unionSet := experience_set ++ job_set.filter (fun w => !experience_set.contains w)
        let relevance_score : ℚ :=
          if unionSet.isEmpty then 50.0
          else ((intersection.length : ℚ) / (unionSet.length : ℚ)) * 100
        min 100 relevance_score

/-- Modelled from the claim's words, for comparison with `domainRelevance`:
"100 times the size of the intersection over the size of the union of the
lower-cased experience keywords and job-description keywords". -/
def specDomainRelevance (experience_keywords job_keywords : List String) : ℚ :=
  let es := distinctKeep [] (experience_keywords.map (fun s => (lowerStr s)))
  let js := distinctKeep [] (job_keywords.map (fun s => (lowerStr s)))
  let intersection := es.filter (fun w => js.contains w)
  let unionSet := es ++ js.filter (fun w => !es.contains w)
  100 * (intersection.length : ℚ) / (unionSet.length : ℚ)

/-- `JobMatcher._categorize_experience_level`. -/
def categorizeExperienceLevel (years : ℚ) : String :=
  if years < 1 then "Entry Level"
  else if years < 3 then "Junior"
  else if years < 7 then "Mid-Level"
  else if years < 12 then "Senior"
  else "Expert"

/-- The `years_match` sub-dictionary of the experience match result. -/
structure YearsMatch where
  cv_years : ℚ
  required_years : ℚ
  meets_requirement : Bool
  score : ℚ
  deriving Repr, DecidableEq

/-- The dictionary returned by `JobMatcher._calculate_experience_match`. -/
structure ExperienceMatch where
  match_score : ℚ
  years_match : YearsMatch
  quality_score : ℚ
  domain_relevance : ℚ
  experience_level : String
  deriving Repr, DecidableEq

/-- The years curve of `JobMatcher._calculate_experience_match`: neutral 80
with no requirement, +2 per excess year capped at +20 when the requirement is
met, else −10 per missing year floored at 20. -/
def yearsScoreOf (cv_years required_years : ℚ) : ℚ :=
  if required_years = 0 then 80
  else if cv_years ≥ required_years then 80 + min 20 ((cv_years - required_years) * 2)
  else max 20 (80 - (required_years - cv_years) * 10)

/-- `JobMatcher._calculate_experience_match`: blends the years score, the
experience quality (default 50) and the domain relevance at weights
0.5 / 0.3 / 0.2, reporting the blend rounded to one decimal. -/
def calcExperienceMatch (cv_data : CvAnalysis) (job_requirements : JobRequirements) :
    ExperienceMatch :=
  let experience_data := cv_data.experience_analysis
  let cv_years := (experience_data.map (fun d => d.total_years.getD 0)).getD 0
  let required_years := job_requirements.minimum_experience.getD 0
  let years_score := yearsScoreOf cv_years required_years
  let experience_quality :=
    (experience_data.map (fun d => d.experience_quality_score.getD 50)).getD 50
  let domain_relevance :=
    domainRelevance experience_data (job_requirements.job_description.getD "")
  let experience_score :=
    years_score * 0.5 + experience_quality * 0.3 + domain_relevance * 0.2
  { match_score := round1 experience_score
    years_match := ⟨cv_years, required_years, cv_years ≥ required_years, round1 years_score⟩
    quality_score := round1 experience_quality
    domain_relevance := round1 domain_relevance
    experience_level := categorizeExperienceLevel cv_years }

/-! ## Count views of the skills analysis (for the monotonicity claim) -/

/-- Number of technical skills read by `_calculate_skills_score`. -/
def techCount (sd : Option SkillsAnalysis) : ℕ :=
  match sd with
  | none => 0
  | some d => (d.technical_skills.getD []).length

/-- Number of non-empty skill categories read by `_calculate_skills_score`. -/
def catCount (sd : Option SkillsAnalysis) : ℕ :=
  match sd with
  | none => 0
  | some d => ((d.skill_categories.getD []).filter (fun p => !p.2.isEmpty)).length

/-- Number of soft skills read by `_calculate_skills_score`. -/
def softCount (sd : Option SkillsAnalysis) : ℕ :=
  match sd with
  | none => 0
  | some d => (d.soft_skills.getD []).length

/-- Number of skills with frequency above 2 read by `_calculate_skills_score`. -/
def freqCount (sd : Option SkillsAnalysis) : ℕ :=
  match sd with
  | none => 0
  | some d => ((d.skill_frequency.getD []).filter (fun p => 2 < p.2)).length

/-- The four capped sub-factors of `_calculate_skills_score` as a function of
the four counts. -/
def skillsFactors (t c s f : ℕ) : ℕ :=
  min 40 (t * 2) + min 30 (c * 5) + min 15 (s * 2) + min 15 (f * 3)

/-- Modelled from the claim's words, for comparison with
`matchSkills`: 100 times the 70/30 blend of the required and preferred match
ratios, the required ratio defaulting to 1.0 and the preferred ratio to 0.5
on an empty list, rounded to two decimals. -/
def specSkillMatchScore (nMatchedReq nReq nMatchedPref nPref : ℕ) : ℚ :=
  let r : ℚ := if nReq = 0 then 1.0 else (nMatchedReq : ℚ) / (nReq : ℚ)
  let p : ℚ := if nPref = 0 then 0.5 else (nMatchedPref : ℚ) / (nPref : ℚ)
  round2 ((r * 0.7 + p * 0.3) * 100)

/-! ## Helper lemmas -/

/-- Rounding at the integers is monotone. -/
lemma round_rat_mono {a b : ℚ} (h : a ≤ b) : round a ≤ round b := by
  rw [round_eq, round_eq]
  exact Int.floor_le_floor (by linarith)

/-- `roundTo` is monotone. -/
lemma roundTo_mono (d : ℕ) {a b : ℚ} (h : a ≤ b) : roundTo d a ≤ roundTo d b := by
  unfold roundTo
  have hp : (0 : ℚ) < (10 : ℚ) ^ d := by positivity
  exact div_le_div_of_nonneg_right
    (by exact_mod_cast round_rat_mono (by nlinarith)) hp.le

/-- `roundTo` fixes integers scaled into range; in particular
`roundTo d 100 = 100`. -/
lemma roundTo_intCast (d : ℕ) (n : ℤ) : roundTo d (n : ℚ) = n := by
  unfold roundTo
  have hp : ((10 : ℚ) ^ d) ≠ 0 := by positivity
  have : ((n : ℚ) * (10 : ℚ) ^ d) = (((n * 10 ^ d : ℤ) : ℚ)) := by push_cast; ring
  rw [this, round_intCast]
  push_cast
  field_simp

/-- The skills component score equals the capped-factor formula applied to
the four counts (an empty dictionary returns 0, which the formula also
yields at zero counts). -/
lemma calcSkillsScore_eq_factors (sd : Option SkillsAnalysis) :
    calcSkillsScore sd = (skillsFactors (techCount sd) (catCount sd) (softCount sd)
      (freqCount sd) : ℚ) := by
  cases sd with
  | none => norm_num [calcSkillsScore, skillsFactors, techCount, catCount, softCount, freqCount]
  | some d =>
    simp only [calcSkillsScore, skillsFactors, techCount, catCount, softCount, freqCount]

/-! ## Claim theorems -/

/-- C1: for every analysis input and every weight configuration summing to
1.0, the `overall_score` field returned by `calculate_overall_score` equals
the weighted sum of the four component scores, rounded to one decimal
place. -/
theorem c1_overall_score_is_weighted_sum (cv : CvAnalysis) (jr : Option JobRequirements)
    (cw : Option Weights)
    (h : (cw.getD defaultWeights).skills + (cw.getD defaultWeights).experience +
      (cw.getD defaultWeights).education + (cw.getD defaultWeights).quality = 1) :
    ((calculateOverallScore mkScoringEngine cv jr cw).2).overall_score =
      round1 ((calcComponentScores cv).skills * (cw.getD defaultWeights).skills +
        (calcComponentScores cv).experience * (cw.getD defaultWeights).experience +
        (calcComponentScores cv).education * (cw.getD defaultWeights).education +
        (calcComponentScores cv).quality * (cw.getD defaultWeights).quality) := by
  simp only [calculateOverallScore, mkScoringEngine, List.foldl]
  congr 1
  ring

/-- C1 witness: the default weights sum to 1.0 and the theorem evaluates on a
concrete (empty) analysis, whose components are 0, 0, 30, 50 and whose
weighted overall score is 11.0. -/
theorem c1_overall_score_is_weighted_sum_witness :
    (defaultWeights.skills + defaultWeights.experience + defaultWeights.education +
      defaultWeights.quality = 1) ∧
    ((calculateOverallScore mkScoringEngine {} none none).2).overall_score =
      round1 ((calcComponentScores {}).skills * defaultWeights.skills +
        (calcComponentScores {}).experience * defaultWeights.experience +
        (calcComponentScores {}).education * defaultWeights.education +
        (calcComponentScores {}).quality * defaultWeights.quality) :=
  ⟨by norm_num [defaultWeights],
   c1_overall_score_is_weighted_sum {} none none (by norm_num [defaultWeights])⟩

/-- C3 counterexample: with weights concentrated on education (summing to
1.0) and an education level score of 89.9, the overall score is exactly 89.9
but the produced grade is "Unknown", not "Very Good": the very-good range is
the integer-bounded interval [80, 89] and 89.9 falls in the gap below 90. -/
theorem c3_grade_89_9_counterexample :
    ((calculateOverallScore mkScoringEngine
        { education_analysis := some { education_level_score := some (899/10) } }
        none (some ⟨0, 0, 1, 0⟩)).2).overall_score = 899/10 ∧
    ((calculateOverallScore mkScoringEngine
        { education_analysis := some { education_level_score := some (899/10) } }
        none (some ⟨0, 0, 1, 0⟩)).2).score_grade = "Unknown" ∧
    ((calculateOverallScore mkScoringEngine
        { education_analysis := some { education_level_score := some (899/10) } }
        none (some ⟨0, 0, 1, 0⟩)).2).score_grade ≠ "Very Good" := by
  refine ⟨by decide, by decide, by decide⟩

/-- C3 amended: an overall score of 90.0 yields grade "Excellent"; an overall
score of 89.9 yields "Unknown", because each grade covers a closed
integer-bounded range (Very Good is [80, 89]) and scores strictly between 89
and 90 fall in no range. -/
theorem c3_grade_boundaries :
    ((calculateOverallScore mkScoringEngine
        { education_analysis := some { education_level_score := some 90 } }
        none (some ⟨0, 0, 1, 0⟩)).2).score_grade = "Excellent" ∧
    ((calculateOverallScore mkScoringEngine
        { education_analysis := some { education_level_score := some (899/10) } }
        none (some ⟨0, 0, 1, 0⟩)).2).score_grade = "Unknown" := by
  refine ⟨by decide, by decide⟩

/-- C8: missing or empty optional inputs yield normally-shaped results with
neutral defaults and no failure path: an empty education dictionary scores
30.0, an empty text-quality dictionary scores 50.0 for any surrounding
analysis, an entirely empty analysis yields component scores
(0, 0, 30, 50), and `match_skills` on entirely absent fields returns the
full result shape with empty collections and the default summary score. -/
theorem c8_missing_field_defaults :
    calcEducationScore none = 30 ∧
    (∀ cv : CvAnalysis, calcQualityScore none cv = 50) ∧
    calcComponentScores {} = ⟨0, 0, 30, 50⟩ ∧
    matchSkills {} {} =
      { matched_skills := []
        missing_skills := ⟨[], []⟩
        skill_match_score := 85
        match_percentage := 85
        skill_gaps := []
        recommendations := []
        category_scores := [] } := by
  refine ⟨by norm_num [calcEducationScore], fun cv => by norm_num [calcQualityScore],
    by decide, by decide⟩

/-- C9: `calculate_overall_score` is deterministic and stateless: the engine
state it returns is the state it was given, and a second call on that state
with identical inputs returns the identical state/result pair. -/
theorem c9_deterministic_stateless (e : ScoringEngine) (cv : CvAnalysis)
    (jr : Option JobRequirements) (w : Option Weights) :
    (calculateOverallScore e cv jr w).1 = e ∧
    calculateOverallScore ((calculateOverallScore e cv jr w).1) cv jr w =
      calculateOverallScore e cv jr w :=
  ⟨rfl, rfl⟩

/-- C5: the skills component score is monotone non-decreasing in the
technical-skill count, category count, soft-skill count and
high-frequency-skill count, and lies in [0, 100] for every input. -/
theorem c5_skills_score_monotone_bounded (sd1 sd2 : Option SkillsAnalysis)
    (ht : techCount sd1 ≤ techCount sd2) (hc : catCount sd1 ≤ catCount sd2)
    (hs : softCount sd1 ≤ softCount sd2) (hf : freqCount sd1 ≤ freqCount sd2) :
    calcSkillsScore sd1 ≤ calcSkillsScore sd2 ∧
    0 ≤ calcSkillsScore sd1 ∧ calcSkillsScore sd1 ≤ 100 := by
  rw [calcSkillsScore_eq_factors sd1, calcSkillsScore_eq_factors sd2]
  refine ⟨?_, ?_, ?_⟩
  · have : skillsFactors (techCount sd1) (catCount sd1) (softCount sd1) (freqCount sd1) ≤
        skillsFactors (techCount sd2) (catCount sd2) (softCount sd2) (freqCount sd2) := by
      unfold skillsFactors
      exact Nat.add_le_add (Nat.add_le_add (Nat.add_le_add
        (min_le_min (le_refl 40) (Nat.mul_le_mul_right 2 ht))
        (min_le_min (le_refl 30) (Nat.mul_le_mul_right 5 hc)))
        (min_le_min (le_refl 15) (Nat.mul_le_mul_right 2 hs)))
        (min_le_min (le_refl 15) (Nat.mul_le_mul_right 3 hf))
    exact_mod_cast this
  · positivity
  · have : skillsFactors (techCount sd1) (catCount sd1) (softCount sd1) (freqCount sd1) ≤ 100 := by
      unfold skillsFactors
      exact le_trans (Nat.add_le_add (Nat.add_le_add (Nat.add_le_add
        (Nat.min_le_left _ _) (Nat.min_le_left _ _)) (Nat.min_le_left _ _))
        (Nat.min_le_left _ _)) (by norm_num)
    exact_mod_cast this

/-- C5 witness: the monotonicity and bounds evaluated between the empty
analysis and a one-of-each analysis. -/
theorem c5_skills_score_monotone_bounded_witness :
    (techCount none ≤ techCount (some { technical_skills := some ["a"], soft_skills := some ["b"], skill_categories := some [("c", ["d"])], skill_frequency := some [("e", 3)] }) ∧
     catCount none ≤ catCount (some { technical_skills := some ["a"], soft_skills := some ["b"], skill_categories := some [("c", ["d"])], skill_frequency := some [("e", 3)] }) ∧
     softCount none ≤ softCount (some { technical_skills := some ["a"], soft_skills := some ["b"], skill_categories := some [("c", ["d"])], skill_frequency := some [("e", 3)] }) ∧
     freqCount none ≤ freqCount (some { technical_skills := some ["a"], soft_skills := some ["b"], skill_categories := some [("c", ["d"])], skill_frequency := some [("e", 3)] })) ∧
    (calcSkillsScore none ≤ calcSkillsScore (some { technical_skills := some ["a"], soft_skills := some ["b"], skill_categories := some [("c", ["d"])], skill_frequency := some [("e", 3)] }) ∧
     0 ≤ calcSkillsScore none ∧ calcSkillsScore none ≤ 100) :=
  ⟨⟨by decide, by decide, by decide, by decide⟩,
   c5_skills_score_monotone_bounded none _ (by decide) (by decide) (by decide) (by decide)⟩

/-- C2 counterexample: with both the required and the preferred skill list
empty, `match_skills` returns `skill_match_score` 85.0, not 100.0 — the
preferred ratio defaults to 0.5, not 1.0. -/
theorem c2_empty_lists_counterexample :
    (matchSkills {} { required_skills := some [], preferred_skills := some [] }
      ).skill_match_score = 85 ∧
    (matchSkills {} { required_skills := some [], preferred_skills := some [] }
      ).skill_match_score ≠ 100 :=
  ⟨by decide, by decide⟩

/-- C2 amended: `skill_match_score` equals 100 times
`0.7 * required-ratio + 0.3 * preferred-ratio` rounded to two decimals, where
the required ratio defaults to 1.0 on an empty required list but the
preferred ratio defaults to 0.5 on an empty preferred list (so both lists
empty yields 85.0, not 100.0). -/
theorem c2_skill_match_score_formula (cv : SkillsAnalysis) (jr : JobRequirements) :
    (matchSkills cv jr).skill_match_score =
      specSkillMatchScore
        (findMatchingSkills (cv.technical_skills.getD [] ++ cv.soft_skills.getD [])
          (jr.required_skills.getD [])).length
        (jr.required_skills.getD []).length
        (findMatchingSkills (cv.technical_skills.getD [] ++ cv.soft_skills.getD [])
          (jr.preferred_skills.getD [])).length
        (jr.preferred_skills.getD []).length := by
  cases hr : jr.required_skills.getD [] <;> cases hp : jr.preferred_skills.getD [] <;>
    simp [matchSkills, specSkillMatchScore, hr, hp]

/-- C6: the concrete skill-match scenario: CV skills Python, React, SQL
against required python, react, vue with no preferred skills yields exact
case-insensitive matches for Python and React with score 1.0, the single
missing required skill vue, and summary score 61.67. -/
theorem c6_skill_match_scenario :
    (matchSkills { technical_skills := some ["Python", "React", "SQL"] }
        { required_skills := some ["python", "react", "vue"],
          preferred_skills := some [] }).matched_skills =
      [⟨"python", "Python", 1⟩, ⟨"react", "React", 1⟩] ∧
    (matchSkills { technical_skills := some ["Python", "React", "SQL"] }
        { required_skills := some ["python", "react", "vue"],
          preferred_skills := some [] }).missing_skills.required = ["vue"] ∧
    (matchSkills { technical_skills := some ["Python", "React", "SQL"] }
        { required_skills := some ["python", "react", "vue"],
          preferred_skills := some [] }).skill_match_score = 61.67 :=
  ⟨by decide, by decide, by decide⟩

/-- The quality and completeness adjustments total at least −8 and at most
+8. -/
lemma totalAdjustment_bounds (cv : CvAnalysis) :
    -8 ≤ (calcCompatibilityAdjustments cv).total_adjustment ∧
    (calcCompatibilityAdjustments cv).total_adjustment ≤ 8 := by
  unfold calcCompatibilityAdjustments
  dsimp only
  split_ifs <;> norm_num

/-- C4 counterexample: with base compatibility 0.0, a quality score of 30
(below 40, −5) and no usable sections (−3), the returned
`compatibility_percentage` is −8.0: the source caps the value at 100 but
never clamps it below at 0. -/
theorem c4_compatibility_below_zero_counterexample :
    (calculateCompatibilityPercentage { text_quality := some { quality_score := some 30 } }
        { overall_compatibility := some 0 }).compatibility_percentage = -8 ∧
    (calculateCompatibilityPercentage { text_quality := some { quality_score := some 30 } }
        { overall_compatibility := some 0 }).compatibility_percentage < 0 :=
  ⟨by decide, by decide⟩

/-- C4 amended: `compatibility_percentage` is capped above at 100 for every
input, but it is only bounded below by the base compatibility minus 8; in
particular it lies in [0, 100] whenever the base `overall_compatibility` is
at least 8 (the source applies `min(100.0, base + adjustment)` with no lower
clamp, and the adjustment is at least −8). -/
theorem c4_compatibility_range (cv : CvAnalysis) (jc : JobCompatibility) :
    (calculateCompatibilityPercentage cv jc).compatibility_percentage ≤ 100 ∧
    (8 ≤ jc.overall_compatibility.getD 0 →
      0 ≤ (calculateCompatibilityPercentage cv jc).compatibility_percentage) := by
  have hb := totalAdjustment_bounds cv
  unfold calculateCompatibilityPercentage
  dsimp only
  constructor
  · have h1 : min (100 : ℚ) (jc.overall_compatibility.getD 0 +
        (calcCompatibilityAdjustments cv).total_adjustment) ≤ ((100 : ℤ) : ℚ) := by
      exact_mod_cast min_le_left _ _
    calc round1 (min (100 : ℚ) (jc.overall_compatibility.getD 0 +
          (calcCompatibilityAdjustments cv).total_adjustment))
        ≤ round1 ((100 : ℤ) : ℚ) := roundTo_mono 1 h1
      _ = 100 := by rw [round1, roundTo_intCast]; norm_num
  · intro h8
    have h0 : ((0 : ℤ) : ℚ) ≤ min (100 : ℚ) (jc.overall_compatibility.getD 0 +
        (calcCompatibilityAdjustments cv).total_adjustment) := by
      refine le_min (by norm_num) ?_
      push_cast
      linarith [hb.1]
    calc (0 : ℚ) = round1 ((0 : ℤ) : ℚ) := by rw [round1, roundTo_intCast]; norm_num
      _ ≤ round1 (min (100 : ℚ) (jc.overall_compatibility.getD 0 +
          (calcCompatibilityAdjustments cv).total_adjustment)) := roundTo_mono 1 h0

/-- C4 witness: the bounds evaluated at an empty analysis and a base
compatibility of 50 (at least 8). -/
theorem c4_compatibility_range_witness :
    ((8 : ℚ) ≤ (JobCompatibility.overall_compatibility
        { overall_compatibility := some 50 }).getD 0) ∧
    (calculateCompatibilityPercentage {} { overall_compatibility := some 50 }
      ).compatibility_percentage ≤ 100 ∧
    0 ≤ (calculateCompatibilityPercentage {} { overall_compatibility := some 50 }
      ).compatibility_percentage :=
  ⟨by decide, (c4_compatibility_range {} { overall_compatibility := some 50 }).1,
   (c4_compatibility_range {} { overall_compatibility := some 50 }).2 (by decide)⟩

/-- `distinctKeep` starting from an empty seen-list maps a nonempty list to a
nonempty list. -/
lemma distinctKeep_nil_ne_nil (l : List String) (h : l ≠ []) :
    distinctKeep [] l ≠ [] := by
  cases l with
  | nil => exact absurd rfl h
  | cons w rest => simp [distinctKeep]

/-- Where the job description is nonempty and both keyword lists are
nonempty, the code's domain relevance equals the claim's Jaccard formula. -/
lemma domainRelevance_eq_spec (exp : Option ExperienceAnalysis) (desc : String)
    (hd : desc ≠ "") (hjk : extractKeywordsFromJobDescription desc ≠ [])
    (hek : (exp.map (fun d => d.keywords_found.getD [])).getD [] ≠ []) :
    domainRelevance exp desc =
      specDomainRelevance ((exp.map (fun d => d.keywords_found.getD [])).getD [])
        (extractKeywordsFromJobDescription desc) := by
  have hes : distinctKeep []
      (((exp.map (fun d => d.keywords_found.getD [])).getD []).map (fun s => lowerStr s)) ≠ [] :=
    distinctKeep_nil_ne_nil _ (by simpa using hek)
  have hjs : distinctKeep []
      ((extractKeywordsFromJobDescription desc).map (fun s => lowerStr s)) ≠ [] :=
    distinctKeep_nil_ne_nil _ (by simpa using hjk)
  unfold domainRelevance specDomainRelevance
  rw [if_neg hd]
  simp only [List.isEmpty_iff, Bool.or_eq_true, decide_eq_true_eq]
  split_ifs with h1 h2 h3
  · exact absurd h1 (by rintro (h | h); exact hjk h; exact hek h)
  · exact absurd h2 (by rintro (h | h); exact hes h; exact hjs h)
  · exact absurd h3 (by
      intro h
      rcases List.append_eq_nil.mp h with ⟨h, -⟩
      exact hes h)
  · set es := distinctKeep []
      (((exp.map (fun d => d.keywords_found.getD [])).getD []).map (fun s => lowerStr s)) with hes_def
    set js := distinctKeep []
      ((extractKeywordsFromJobDescription desc).map (fun s => lowerStr s)) with hjs_def
    have hupos : (0 : ℚ) < ((es ++ js.filter (fun w => !es.contains w)).length : ℚ) := by
      have h0 : es.length ≠ 0 := fun h => hes (List.length_eq_zero.mp h)
      have h1 : 0 < (es ++ js.filter (fun w => !es.contains w)).length := by
        rw [List.length_append]; omega
      exact_mod_cast h1
    have hle : (((es.filter (fun w => js.contains w)).length : ℚ) /
        ((es ++ js.filter (fun w => !es.contains w)).length : ℚ)) * 100 ≤ 100 := by
      have hlen : (es.filter (fun w => js.contains w)).length ≤
          (es ++ js.filter (fun w => !es.contains w)).length := by
        rw [List.length_append]
        exact le_trans (List.length_filter_le _ _) (Nat.le_add_right _ _)
      have hdiv : ((es.filter (fun w => js.contains w)).length : ℚ) /
          ((es ++ js.filter (fun w => !es.contains w)).length : ℚ) ≤ 1 := by
        rw [div_le_one hupos]
        exact_mod_cast hlen
      nlinarith
    rw [min_eq_right hle]
    ring

/-- C7 counterexample: with one experience keyword, quality 50, no minimum
experience and job description "xyz" (which yields no extracted keywords),
the code returns an experience match score of 65.0 — the domain relevance
falls back to the neutral 50 — while the claim's pure Jaccard formula
(intersection 0, union 1) would give 55.0. -/
theorem c7_experience_match_counterexample :
    (calcExperienceMatch { experience_analysis := some { experience_quality_score := some 50, keywords_found := some ["python"] } } { job_description := some "xyz" }).match_score = 65 ∧
    (calcExperienceMatch { experience_analysis := some { experience_quality_score := some 50, keywords_found := some ["python"] } } { job_description := some "xyz" }).match_score ≠
      0.5 * yearsScoreOf 0 0 + 0.3 * 50 +
        0.2 * specDomainRelevance ["python"] (extractKeywordsFromJobDescription "xyz") :=
  ⟨by decide, by decide⟩

/-- C7 amended: the experience match score is the rounded 0.5/0.3/0.2 blend
of the years score, the experience quality and the code's domain relevance;
the domain relevance equals the claim's Jaccard keyword-overlap formula
whenever the job description is nonempty and both keyword lists are
nonempty, and otherwise falls back to the neutral 50. -/
theorem c7_experience_match_formula (cv : CvAnalysis) (jr : JobRequirements) :
    (calcExperienceMatch cv jr).match_score =
      round1 (0.5 * yearsScoreOf ((cv.experience_analysis.map (fun d => d.total_years.getD 0)).getD 0)
          (jr.minimum_experience.getD 0) +
        0.3 * (cv.experience_analysis.map (fun d => d.experience_quality_score.getD 50)).getD 50 +
        0.2 * domainRelevance cv.experience_analysis (jr.job_description.getD "")) ∧
    (jr.job_description.getD "" ≠ "" →
      extractKeywordsFromJobDescription (jr.job_description.getD "") ≠ [] →
      (cv.experience_analysis.map (fun d => d.keywords_found.getD [])).getD [] ≠ [] →
      domainRelevance cv.experience_analysis (jr.job_description.getD "") =
        specDomainRelevance ((cv.experience_analysis.map (fun d => d.keywords_found.getD [])).getD [])
          (extractKeywordsFromJobDescription (jr.job_description.getD ""))) := by
  constructor
  · unfold calcExperienceMatch
    dsimp only
    congr 1
    ring
  · intro hd hjk hek
    exact domainRelevance_eq_spec cv.experience_analysis (jr.job_description.getD "") hd hjk hek

/-- C7 witness: the formula and the Jaccard agreement evaluated at a job
description whose text contains literal backslash-b delimited words (the only
text the source's doubled-backslash pattern can match), repeated three times
so the frequency filter keeps the keyword. -/
theorem c7_experience_match_formula_witness :
    ((calcExperienceMatch { experience_analysis := some { experience_quality_score := some 50, keywords_found := some ["\\bdevelopment\\b"] } } { job_description := some "\\bdevelopment\\b \\bdevelopment\\b \\bdevelopment\\b" }).match_score =
      round1 (0.5 * yearsScoreOf (((CvAnalysis.experience_analysis { experience_analysis := some { experience_quality_score := some 50, keywords_found := some ["\\bdevelopment\\b"] } }).map (fun d => d.total_years.getD 0)).getD 0)
          ((JobRequirements.minimum_experience { job_description := some "\\bdevelopment\\b \\bdevelopment\\b \\bdevelopment\\b" }).getD 0) +
        0.3 * ((CvAnalysis.experience_analysis { experience_analysis := some { experience_quality_score := some 50, keywords_found := some ["\\bdevelopment\\b"] } }).map (fun d => d.experience_quality_score.getD 50)).getD 50 +
        0.2 * domainRelevance (CvAnalysis.experience_analysis { experience_analysis := some { experience_quality_score := some 50, keywords_found := some ["\\bdevelopment\\b"] } }) ((JobRequirements.job_description { job_description := some "\\bdevelopment\\b \\bdevelopment\\b \\bdevelopment\\b" }).getD ""))) ∧
    domainRelevance (CvAnalysis.experience_analysis { experience_analysis := some { experience_quality_score := some 50, keywords_found := some ["\\bdevelopment\\b"] } }) ((JobRequirements.job_description { job_description := some "\\bdevelopment\\b \\bdevelopment\\b \\bdevelopment\\b" }).getD "") =
      specDomainRelevance (((CvAnalysis.experience_analysis { experience_analysis := some { experience_quality_score := some 50, keywords_found := some ["\\bdevelopment\\b"] } }).map (fun d => d.keywords_found.getD [])).getD [])
        (extractKeywordsFromJobDescription ((JobRequirements.job_description { job_description := some "\\bdevelopment\\b \\bdevelopment\\b \\bdevelopment\\b" }).getD "")) :=
  ⟨(c7_experience_match_formula { experience_analysis := some { experience_quality_score := some 50, keywords_found := some ["\\bdevelopment\\b"] } } { job_description := some "\\bdevelopment\\b \\bdevelopment\\b \\bdevelopment\\b" }).1,
   (c7_experience_match_formula { experience_analysis := some { experience_quality_score := some 50, keywords_found := some ["\\bdevelopment\\b"] } } { job_description := some "\\bdevelopment\\b \\bdevelopment\\b \\bdevelopment\\b" }).2
     (by decide) (by decide) (by decide)⟩

/-- If the best-match search ends with score at least 0.8, either the
starting accumulator already had such a score or some candidate skill is an
exact lowercase match, a synonym, or a fuzzy match above 0.8. -/
lemma findBestMatch_high_score (req : String) (l : List String) (acc : Option String × ℚ)
    (h : 0.8 ≤ (findBestMatch req l acc).2) :
    0.8 ≤ acc.2 ∨ ∃ cv ∈ l, lowerStr cv = lowerStr req ∨ areSkillSynonyms cv req = true ∨
      sequenceSimilarity (lowerStr cv) (lowerStr req) > 0.8 := by
  induction l generalizing acc with
  | nil => exact Or.inl h
  | cons cv rest ih =>
    rw [findBestMatch] at h
    by_cases hex : lowerStr cv = lowerStr req
    · exact Or.inr ⟨cv, List.mem_cons_self cv rest, Or.inl hex⟩
    · rw [if_neg hex] at h
      simp only [] at h
      split_ifs at h with h1 h2 h3
      · rcases ih _ h with hacc | ⟨cv', hm, hc⟩
        · exact Or.inr ⟨cv, List.mem_cons_self cv rest, Or.inr (Or.inr h2.1)⟩
        · exact Or.inr ⟨cv', List.mem_cons_of_mem cv hm, hc⟩
      · rcases ih _ h with hacc | ⟨cv', hm, hc⟩
        · exact Or.inr ⟨cv, List.mem_cons_self cv rest, Or.inr (Or.inl h1.1)⟩
        · exact Or.inr ⟨cv', List.mem_cons_of_mem cv hm, hc⟩
      · rcases ih _ h with hacc | ⟨cv', hm, hc⟩
        · exact Or.inr ⟨cv, List.mem_cons_self cv rest, Or.inr (Or.inr h3.1)⟩
        · exact Or.inr ⟨cv', List.mem_cons_of_mem cv hm, hc⟩
      · rcases ih _ h with hacc | ⟨cv', hm, hc⟩
        · exact Or.inl hacc
        · exact Or.inr ⟨cv', List.mem_cons_of_mem cv hm, hc⟩

/-- C10 counterexample: with CV skill "ml" and required skill "ai" — a
synonym pair whose sequence-similarity ratio is 0 — the synonym branch of
`_find_matching_skills` never fires (it requires the ratio to exceed the
current best score of 0), yet `_find_missing_skills` counts the synonym as
found: the required skill "ai" appears in neither returned list. -/
theorem c10_synonym_uncovered_counterexample :
    (matchSkills { technical_skills := some ["ml"] }
        { required_skills := some ["ai"], preferred_skills := some [] }).matched_skills = [] ∧
    (matchSkills { technical_skills := some ["ml"] }
        { required_skills := some ["ai"], preferred_skills := some [] }
      ).missing_skills.required = [] :=
  ⟨by decide, by decide⟩

/-- C10 amended: the matched and missing lists are disjoint — a required
skill reported as matched is never also reported missing — but together they
need not cover every required skill: a required skill whose only candidates
are synonyms with sequence-similarity ratio 0 (such as "ml" against "ai")
appears in neither list. -/
theorem c10_matched_and_missing_disjoint (cv_skills required_skills : List String) (r : String)
    (h : r ∈ (findMatchingSkills cv_skills required_skills).map (fun m => m.required_skill)) :
    r ∉ findMissingSkills cv_skills required_skills := by
  rw [List.mem_map] at h
  obtain ⟨entry, hentry, hname⟩ := h
  rw [findMatchingSkills, List.mem_filterMap] at hentry
  obtain ⟨req, hreq, hsome⟩ := hentry
  simp only [] at hsome
  rcases hb : (findBestMatch req cv_skills (none, 0.0)).1 with _ | bm
  · rw [hb] at hsome
    dsimp only at hsome
    exact absurd hsome (by simp)
  · rw [hb] at hsome
    dsimp only at hsome
    split_ifs at hsome with hcond
    · have hentry_eq : entry = ⟨req, bm, round2 ((findBestMatch req cv_skills (none, 0.0)).2)⟩ :=
        (Option.some.inj hsome).symm
      have hr : req = r := by rw [← hname, hentry_eq]
      subst hr
      rcases findBestMatch_high_score req cv_skills (none, 0.0) hcond.2 with habs | ⟨cvs, hmem, hcase⟩
      · norm_num at habs
      · intro hmiss
        rw [findMissingSkills] at hmiss
        simp only [List.mem_filter] at hmiss
        have hp := hmiss.2
        simp only [Bool.not_eq_true', Bool.or_eq_false_iff] at hp
        rcases hcase with hx | hx | hx
        · have hmem2 : lowerStr req ∈ cv_skills.map (fun s => lowerStr s) :=
            List.mem_map.mpr ⟨cvs, hmem, hx⟩
          have : (cv_skills.map (fun s => lowerStr s)).contains (lowerStr req) = true := by
            simpa using hmem2
          rw [this] at hp
          exact absurd hp.1 (by simp)
        · have : existsSynOrFuzzy cv_skills req = true := by
            rw [existsSynOrFuzzy, List.any_eq_true]
            exact ⟨cvs, hmem, by rw [hx]; simp⟩
          rw [this] at hp
          exact absurd hp.2 (by simp)
        · have : existsSynOrFuzzy cv_skills req = true := by
            rw [existsSynOrFuzzy, List.any_eq_true]
            exact ⟨cvs, hmem, by simp [hx]⟩
          rw [this] at hp
          exact absurd hp.2 (by simp)

/-- C10 witness: disjointness evaluated at CV skill "Python" and required
skill "python", which is matched and therefore not missing. -/
theorem c10_matched_and_missing_disjoint_witness :
    ("python" ∈ (findMatchingSkills ["Python"] ["python"]).map (fun m => m.required_skill)) ∧
    "python" ∉ findMissingSkills ["Python"] ["python"] :=
  ⟨by decide, c10_matched_and_missing_disjoint ["Python"] ["python"] "python" (by decide)⟩
